import Mathlib

/-!
Shallow embedding of the olive tool-invocation runtime
(src/olive/schemas.py, src/olive/registry.py, src/olive/decorator.py,
src/olive/router.py, src/olive/temporal/worker.py) and proofs about the
behaviour its specification claims.

Modelling conventions:
* Python/JSON values are `JValue`; Python `None` is `JValue.null`.
* Python dicts are insertion-ordered association lists with unique keys;
  `dictGet`/`dictSet` mirror `d.get(k)` / `d[k] = v`.
* Python exceptions that are `Exception` subclasses are `PyExc` values,
  carrying the class name and the message (`str(e)` is the message).
* The pydantic models in schemas.py use the default model configuration:
  unknown keyword arguments passed to a model constructor are silently
  ignored, and reading an attribute the model does not declare raises
  `AttributeError`.  Constructor call sites that pass extra keywords are
  modelled by `mk...` functions that drop them; undeclared attribute reads
  are modelled by `getattr_...` functions returning the raised exception.
-/

/-- JSON / Python value universe used for arguments, context, schemas and
results.  Python `None` is `null`; floats are not needed by any claim. -/
inductive JValue where
  | null
  | bool (b : Bool)
  | int (n : Int)
  | str (s : String)
  | arr (xs : List JValue)
  | obj (fs : List (String × JValue))

/-- Python `value is None` (identity test against the `None` singleton). -/
def JValue.isNull : JValue → Bool
  | JValue.null => true
  | _ => false

/-- Dictionary lookup, as Python `d.get(k)` (returns `none` when absent). -/
def dictGet {α : Type} : List (String × α) → String → Option α
  | [], _ => none
  | (k', v) :: rest, k => if k' = k then some v else dictGet rest k

/-- Dictionary assignment `d[k] = v`: replaces the value in place when the
key exists, otherwise appends the pair (Python dicts keep insertion order). -/
def dictSet {α : Type} : List (String × α) → String → α → List (String × α)
  | [], k, v => [(k, v)]
  | (k', v') :: rest, k, v =>
    if k' = k then (k', v) :: rest else (k', v') :: dictSet rest k v

/-- Assignment `schema[k] = v` on a JSON object (used for the `nullable` and
`default` keys the deriver adds); non-objects are left unchanged. -/
def jsonObjSet : JValue → String → JValue → JValue
  | JValue.obj fs, k, v => JValue.obj (dictSet fs k v)
  | j, _, _ => j

/-- Substring relation: `sub` occurs somewhere in `s` (Python `sub in s`). -/
def strContains (s sub : String) : Prop :=
  sub.data <:+: s.data

instance (s sub : String) : Decidable (strContains s sub) := by
  unfold strContains; infer_instance

/-- A raised Python exception: class name and message.  `str(e)` of the
exceptions the router handles is the message. -/
structure PyExc where
  excName : String
  msg : String
  deriving DecidableEq

/-- Whether `except TimeoutError` catches the exception (asyncio timeouts in
modern Python raise the builtin `TimeoutError`). -/
def PyExc.isTimeout (e : PyExc) : Bool :=
  e.excName = "TimeoutError"

/-- Python type annotations, as far as `python_type_to_json_schema` in
schemas.py inspects them.  `unionOf ts` is a flattened `X | Y | ...` with
its argument tuple; `annotatedInject base key req` is
`Annotated[base, Inject(key=key, required=req)]` (the only `Annotated`
form the claims exercise); `unknownClass` stands for any other class. -/
inductive PyType where
  | pystr
  | pyint
  | pyfloat
  | pybool
  | pyNone
  | pyAny
  | bareList
  | bareTuple
  | bareSet
  | bareDict
  | listOf (t : PyType)
  | setOf (t : PyType)
  | tupleOf (ts : List PyType)
  | dictOf (k v : PyType)
  | unionOf (ts : List PyType)
  | annotatedInject (base : PyType) (key : String) (required : Bool)
  | baseModel (modelName : String)
  | callableType
  | unknownClass

/-- Identity test against `type(None)` (the `t is not type(None)` checks in
the union branch of the schema mapping). -/
def PyType.isNoneType : PyType → Bool
  | PyType.pyNone => true
  | _ => false

/-- Translation of `python_type_to_json_schema` (schemas.py lines 130-194).
The two-element union with `NoneType` becomes the non-`None` schema plus
`nullable: true`; every other union becomes `anyOf` of the member schemas.
An `Annotated[..., Inject]` never reaches this function in practice
(extraction filters it out first); the source would fall through to the
`callable` branch, returning the generic object schema. -/
def python_type_to_json_schema : PyType → JValue
  | PyType.pystr => JValue.obj [("type", JValue.str "string")]
  | PyType.pyint => JValue.obj [("type", JValue.str "integer")]
  | PyType.pyfloat => JValue.obj [("type", JValue.str "number")]
  | PyType.pybool => JValue.obj [("type", JValue.str "boolean")]
  | PyType.bareList => JValue.obj [("type", JValue.str "array")]
  | PyType.bareTuple => JValue.obj [("type", JValue.str "array")]
  | PyType.bareSet => JValue.obj [("type", JValue.str "array")]
  | PyType.bareDict => JValue.obj [("type", JValue.str "object")]
  | PyType.pyAny => JValue.obj []
  | PyType.pyNone => JValue.obj [("type", JValue.str "null")]
  | PyType.listOf t =>
    JValue.obj [("type", JValue.str "array"), ("items", python_type_to_json_schema t)]
  | PyType.setOf t =>
    JValue.obj [("type", JValue.str "array"), ("items", python_type_to_json_schema t)]
  | PyType.tupleOf ts =>
    JValue.obj [("type", JValue.str "array"),
      ("items", JValue.arr (ts.attach.map (fun x => python_type_to_json_schema x.1)))]
  | PyType.dictOf _ v =>
    JValue.obj [("type", JValue.str "object"),
      ("additionalProperties", python_type_to_json_schema v)]
  | PyType.unionOf [] => JValue.obj [("anyOf", JValue.arr [])]
  | PyType.unionOf [a] =>
    JValue.obj [("anyOf", JValue.arr [python_type_to_json_schema a])]
  | PyType.unionOf [a, b] =>
    if a.isNoneType then
      jsonObjSet (python_type_to_json_schema b) "nullable" (JValue.bool true)
    else if b.isNoneType then
      jsonObjSet (python_type_to_json_schema a) "nullable" (JValue.bool true)
    else
      JValue.obj [("anyOf",
        JValue.arr [python_type_to_json_schema a, python_type_to_json_schema b])]
  | PyType.unionOf (a :: b :: c :: rest) =>
    JValue.obj [("anyOf",
      JValue.arr (python_type_to_json_schema a :: python_type_to_json_schema b ::
        python_type_to_json_schema c ::
        rest.attach.map (fun x => python_type_to_json_schema x.1)))]
  | PyType.annotatedInject _ _ _ => JValue.obj [("type", JValue.str "object")]
  | PyType.baseModel n =>
    JValue.obj [("$ref", JValue.str ("#/definitions/" ++ n))]
  | PyType.callableType => JValue.obj [("type", JValue.str "object")]
  | PyType.unknownClass => JValue.obj [("type", JValue.str "object")]
termination_by t => sizeOf t
decreasing_by
  all_goals simp_wf
  all_goals try omega
  all_goals (have h := List.sizeOf_lt_of_mem x.2; omega)

/-- ToolInjection (schemas.py lines 28-33).  The model declares exactly the
fields `param`, `config_key`, `required`; in particular it declares no
`expected_type` field, which matters for the router's type-check branch. -/
structure ToolInjection where
  param : String
  config_key : String
  required : Bool
  deriving DecidableEq

/-- Reading `injection.expected_type` (router.py line 244): ToolInjection
declares no such field, so pydantic raises AttributeError. -/
def ToolInjection.getattr_expected_type (_ : ToolInjection) : Except PyExc JValue :=
  Except.error
    { excName := "AttributeError",
      msg := "'ToolInjection' object has no attribute 'expected_type'" }

/-- One parameter of a Python callable's signature: its name, the type hint
(`hints.get(name, Any)`; an unannotated parameter is `Any`), and the default
(`none` models `inspect.Parameter.empty`, `some JValue.null` an explicit
`None` default). -/
structure FuncParam where
  name : String
  ty : PyType
  default : Option JValue

/-- Translation of `_parse_inject_annotation` (schemas.py lines 67-79):
an `Annotated[base, Inject(key, required)]` hint yields the base type and an
injection descriptor with an empty `param` (filled in by the caller). -/
def parse_inject_annotation (t : PyType) : PyType × Option ToolInjection :=
  match t with
  | PyType.annotatedInject base key req =>
    (base, some { param := "", config_key := key, required := req })
  | _ => (t, none)

/-- Loop body of `extract_schema_from_function` (schemas.py lines 93-119)
over the parameter list, producing the `properties` entries, the `required`
names and the injection descriptors, in source iteration order. -/
def extractParams : List FuncParam →
    List (String × JValue) × List String × List ToolInjection
  | [] => ([], [], [])
  | p :: rest =>
    if p.name = "self" then extractParams rest
    else
      match parse_inject_annotation p.ty with
      | (_, some inj) =>
        let (props, req, injs) := extractParams rest
        (props, req, { inj with param := p.name } :: injs)
      | (base, none) =>
        let schema0 := python_type_to_json_schema base
        let schema :=
          match p.default with
          | none => schema0
          | some d => if d.isNull then schema0 else jsonObjSet schema0 "default" d
        let (props, req, injs) := extractParams rest
        ((p.name, schema) :: props,
         (match p.default with
          | none => p.name :: req
          | some _ => req),
         injs)

/-- Translation of `extract_schema_from_function` (schemas.py lines 82-127):
input schema, output schema and injection metadata from a signature. -/
def extract_schema_from_function (params : List FuncParam) (ret : PyType) :
    JValue × JValue × List ToolInjection :=
  let (properties, required, injections) := extractParams params
  let input_schema := JValue.obj
    [("type", JValue.str "object"),
     ("properties", JValue.obj properties),
     ("required", JValue.arr (required.map JValue.str))]
  (input_schema, python_type_to_json_schema ret, injections)

/-- ToolInfo (schemas.py lines 11-25).  The declared fields: note there is no
`fire_and_forget` field and no `profiles` field.  The callable is modelled by
its observable behaviour: final keyword arguments to a returned value or a
raised exception, with expiry of the direct-mode deadline represented as a
`TimeoutError` outcome (asyncio.wait_for delivers its deadline expiry to the
caller as a raised TimeoutError, indistinguishable at the except-site from a
TimeoutError raised by the callable itself). -/
structure ToolInfo where
  name : String
  description : String
  input_schema : JValue
  output_schema : JValue
  func : List (String × JValue) → Except PyExc JValue
  timeout_seconds : Nat
  retry_policy : Option JValue
  injections : List ToolInjection

/-- Construction call site `ToolInfo(...)` in decorator.py lines 64-75: the
`fire_and_forget=...` and `profiles=...` keyword arguments name no declared
field, and pydantic's default configuration silently ignores unknown
constructor keywords, so both are discarded. -/
def mkToolInfo (name description : String) (input_schema output_schema : JValue)
    (func : List (String × JValue) → Except PyExc JValue)
    (timeout_seconds : Nat) (retry_policy : Option JValue)
    (fire_and_forget : Bool) (injections : List ToolInjection)
    (profiles : List String) : ToolInfo :=
  { name := name, description := description, input_schema := input_schema,
    output_schema := output_schema, func := func,
    timeout_seconds := timeout_seconds, retry_policy := retry_policy,
    injections := injections }

/-- Reading `tool_info.fire_and_forget` (router.py line 274): ToolInfo
declares no such field, so pydantic raises AttributeError. -/
def ToolInfo.getattr_fire_and_forget (_ : ToolInfo) : Except PyExc Bool :=
  Except.error
    { excName := "AttributeError",
      msg := "'ToolInfo' object has no attribute 'fire_and_forget'" }

/-- Reading `getattr(tool_info, "profiles", [])` (router.py line 60): the
attribute does not exist, so the supplied default `[]` is returned. -/
def ToolInfo.getattr_profiles_default (_ : ToolInfo) : List String := []

/-- ToolRegistry state (registry.py): a name-keyed, insertion-ordered dict of
ToolInfo.  The lock only serialises individual operations; each operation is
modelled as a pure function on this state. -/
abbrev ToolRegistry := List (String × ToolInfo)

/-- Translation of `ToolRegistry.register` (registry.py lines 18-23): raises
ValueError when the name is already present (returned as `Except.error`,
leaving the caller's registry untouched), otherwise adds the tool. -/
def ToolRegistry.register (r : ToolRegistry) (tool_info : ToolInfo) :
    Except String ToolRegistry :=
  if (dictGet r tool_info.name).isSome then
    Except.error ("Tool '" ++ tool_info.name ++ "' is already registered")
  else
    Except.ok (r ++ [(tool_info.name, tool_info)])

/-- Translation of `ToolRegistry.get` (registry.py lines 25-28). -/
def ToolRegistry.get (r : ToolRegistry) (name : String) : Option ToolInfo :=
  dictGet r name

/-- Translation of `ToolRegistry.list_all` (registry.py lines 30-33): the
values snapshot in insertion order. -/
def ToolRegistry.list_all (r : ToolRegistry) : List ToolInfo :=
  r.map (fun p => p.2)

/-- A sequence of registration attempts (registry.py `register` called
repeatedly): a failed attempt raises and leaves the registry unchanged; the
second component counts the attempts that succeeded. -/
def registerAttempts (r : ToolRegistry) : List ToolInfo → ToolRegistry × Nat
  | [] => (r, 0)
  | t :: ts =>
    match r.register t with
    | Except.ok r' => let (rFinal, n) := registerAttempts r' ts; (rFinal, n + 1)
    | Except.error _ => registerAttempts r ts

/-- A Python callable handed to `@olive_tool`: its dunder name, the first
line of its stripped docstring (modelling
`(f.__doc__ or "").strip().split("\n")[0]`, the empty string when there is
no docstring), its signature, and its call behaviour. -/
structure PyFuncDecl where
  pyName : String
  docFirstLine : String
  params : List FuncParam
  ret : PyType
  behavior : List (String × JValue) → Except PyExc JValue

/-- Translation of the `olive_tool` decorator (decorator.py lines 47-81):
derives name, description, schemas and injections, builds the ToolInfo (via
the constructor call site that drops `fire_and_forget` and `profiles`) and
registers it.  Registration failure propagates the ValueError. -/
def olive_tool (r : ToolRegistry) (f : PyFuncDecl)
    (description : Option String) (timeout_seconds : Nat)
    (retry_policy : Option JValue) (fire_and_forget : Bool)
    (profiles : Option (List String)) : Except String ToolRegistry :=
  let tool_name := f.pyName
  let tool_description :=
    match description with
    | some d => d
    | none => if f.docFirstLine ≠ "" then f.docFirstLine else "Tool: " ++ tool_name
  let (input_schema, output_schema, injections) :=
    extract_schema_from_function f.params f.ret
  let tool_info := mkToolInfo tool_name tool_description input_schema output_schema
    f.behavior timeout_seconds
    (some (match retry_policy with
           | some rp => rp
           | none => JValue.obj [("max_attempts", JValue.int 3)]))
    fire_and_forget injections
    (match profiles with | some ps => ps | none => [])
  r.register tool_info

/-- ToolCallRequest (schemas.py lines 36-44): `arguments` defaults to the
empty dict; `context` is optional and distinct from the empty dict. -/
structure ToolCallRequest where
  tool_name : String
  arguments : List (String × JValue)
  context : Option (List (String × JValue))

/-- ToolCallResponse (schemas.py lines 47-53).  The declared fields are
exactly `success`, `result`, `error`, `metadata`; note there is no
`error_type` field. -/
structure ToolCallResponse where
  success : Bool
  result : JValue
  error : Option String
  metadata : Option JValue

/-- Keyword arguments passed to `ToolCallResponse(...)` at a return site of
`call_tool` in router.py, including the `error_type=...` keyword the call
sites supply. -/
structure ResponseArgs where
  success : Bool
  result : JValue
  error : Option String
  metadata : Option JValue
  error_type : Option String

/-- Construction `ToolCallResponse(..., error_type=...)`: ToolCallResponse
declares no `error_type` field and pydantic's default configuration ignores
unknown constructor keywords, so the classification is silently dropped. -/
def mkToolCallResponse (a : ResponseArgs) : ToolCallResponse :=
  { success := a.success, result := a.result, error := a.error,
    metadata := a.metadata }

/-- Serialisation of a ToolCallResponse (pydantic `model_dump` / the JSON
body FastAPI returns): exactly the declared fields, in declaration order;
absent optionals serialise as `null`. -/
def ToolCallResponse.model_dump (r : ToolCallResponse) : List (String × JValue) :=
  [("success", JValue.bool r.success),
   ("result", r.result),
   ("error", match r.error with | some s => JValue.str s | none => JValue.null),
   ("metadata", match r.metadata with | some m => m | none => JValue.null)]

/-- The Temporal worker as the router observes it (temporal/worker.py):
`uuid` models the `uuid4()` drawn for this call, and `executeResult` the
outcome of awaiting `execute_tool`'s workflow. -/
structure TemporalWorker where
  uuid : String
  executeResult : Except PyExc JValue

/-- Translation of `TemporalWorker.start_tool` (temporal/worker.py lines
175-211): starts the workflow under a fresh id `olive-tool-{name}-{uuid4()}`
and returns the id immediately without awaiting the result. -/
def TemporalWorker.start_tool (w : TemporalWorker) (tool_name : String)
    (_arguments : List (String × JValue)) (_timeout_seconds : Nat)
    (_retry_policy : Option JValue) : String :=
  "olive-tool-" ++ tool_name ++ "-" ++ w.uuid

/-- Translation of `TemporalWorker.execute_tool` (temporal/worker.py lines
139-173): awaits the workflow and returns its result (or raises). -/
def TemporalWorker.execute_tool (w : TemporalWorker) (_tool_name : String)
    (_arguments : List (String × JValue)) (_timeout_seconds : Nat)
    (_retry_policy : Option JValue) : Except PyExc JValue :=
  w.executeResult

/-- The `context = tool_request.context or {}` normalisation (router.py line
235): an absent context becomes the empty dict. -/
def requestContext (tool_request : ToolCallRequest) : List (String × JValue) :=
  match tool_request.context with
  | some c => c
  | none => []

/-- The `value = context.get(config_key)` lookup (router.py line 241): an
absent key yields Python `None`, i.e. `JValue.null`. -/
def contextValue (context : List (String × JValue)) (config_key : String) : JValue :=
  match dictGet context config_key with
  | some v => v
  | none => JValue.null

/-- Outcome of the injection loop in `call_tool` (router.py lines 234-267):
the final argument dict, an early `return ToolCallResponse(...)`, or an
exception propagating out of the loop (caught by the enclosing `except`). -/
inductive ResolveOut where
  | ok (finalArgs : List (String × JValue))
  | errResp (resp : ResponseArgs)
  | raised (e : PyExc)

/-- Translation of the injection loop (router.py lines 236-267).  For each
injection in order: a parameter already in the arguments is left untouched;
otherwise `context.get(config_key)` is consulted.  A non-`None` value
reaches `if injection.expected_type:` (line 244), which raises
AttributeError since ToolInjection declares no such field — so lines
245-256 (the type check and the injection itself) are unreachable.  A
`None` value (key absent, or key present with an explicit null) fails with
the missing-context response when the injection is required and is skipped
otherwise. -/
def resolve_injections (context : List (String × JValue)) :
    List ToolInjection → List (String × JValue) → ResolveOut
  | [], finalArgs => ResolveOut.ok finalArgs
  | injection :: rest, finalArgs =>
    let param := injection.param
    let config_key := injection.config_key
    if (dictGet finalArgs param).isSome then
      resolve_injections context rest finalArgs
    else
      let value := contextValue context config_key
      if value.isNull then
        if injection.required then
          ResolveOut.errResp
            { success := false, result := JValue.null,
              error := some ("Missing required context value '" ++ config_key ++
                "' for param '" ++ param ++ "'"),
              metadata := none, error_type := some "missing_context" }
        else
          resolve_injections context rest finalArgs
      else
        match injection.getattr_expected_type with
        | Except.error e => ResolveOut.raised e
        | Except.ok _ => resolve_injections context rest finalArgs

/-- Translation of the `call_tool` handler (router.py lines 206-334), up to
the keyword arguments each return site passes to `ToolCallResponse`.  The
`try`/`except` structure is modelled by matching on the exception outcomes;
the handler itself never lets an exception escape (the function is total
and always produces response arguments).  In direct mode the call outcome
is `tool_info.func` applied to the final arguments with deadline expiry
surfacing as a TimeoutError (see `ToolInfo.func`); `except TimeoutError`
(lines 323-329) catches that case, and every other exception anywhere in
the `try` block reaches `except Exception` (lines 332-334). -/
def call_tool_args (r : ToolRegistry) (temporal_worker : Option TemporalWorker)
    (tool_request : ToolCallRequest) : ResponseArgs :=
  match r.get tool_request.tool_name with
  | none =>
    { success := false, result := JValue.null,
      error := some ("Tool '" ++ tool_request.tool_name ++ "' not found"),
      metadata := none, error_type := some "tool_not_found" }
  | some tool_info =>
    -- Argument normalisation (lines 229-231) is the identity on a dict model.
    let arguments := tool_request.arguments
    let context := requestContext tool_request
    match resolve_injections context tool_info.injections arguments with
    | ResolveOut.errResp resp => resp
    | ResolveOut.raised e =>
      { success := false, result := JValue.null, error := some e.msg,
        metadata := none, error_type := some "execution_error" }
    | ResolveOut.ok final_args =>
      match temporal_worker with
      | some worker =>
        match tool_info.getattr_fire_and_forget with
        | Except.error e =>
          -- line 274 raises; caught by `except Exception` at line 332
          { success := false, result := JValue.null, error := some e.msg,
            metadata := none, error_type := some "execution_error" }
        | Except.ok faf =>
          -- unreachable: the attribute read always raises; translated from
          -- lines 274-306 for completeness
          if faf then
            let workflow_id := worker.start_tool tool_request.tool_name final_args
              tool_info.timeout_seconds tool_info.retry_policy
            { success := true,
              result := JValue.str ("Workflow started: " ++ workflow_id),
              metadata := some (JValue.obj
                [("executed_via", JValue.str "temporal"),
                 ("workflow_id", JValue.str workflow_id),
                 ("fire_and_forget", JValue.bool true)]),
              error := none, error_type := none }
          else
            match worker.execute_tool tool_request.tool_name final_args
              tool_info.timeout_seconds tool_info.retry_policy with
            | Except.ok result =>
              { success := true, result := result,
                metadata := some (JValue.obj
                  [("executed_via", JValue.str "temporal"),
                   ("workflow_type", JValue.str "OliveToolWorkflow")]),
                error := none, error_type := none }
            | Except.error e =>
              { success := false, result := JValue.null, error := some e.msg,
                metadata := none, error_type := some "execution_error" }
      | none =>
        let timeout := tool_info.timeout_seconds
        match tool_info.func final_args with
        | Except.ok result =>
          { success := true, result := result, error := none,
            metadata := none, error_type := none }
        | Except.error e =>
          if e.isTimeout then
            { success := false, result := JValue.null,
              error := some ("Tool '" ++ tool_request.tool_name ++
                "' timed out after " ++ toString timeout ++ "s"),
              metadata := none, error_type := some "timeout" }
          else
            { success := false, result := JValue.null, error := some e.msg,
              metadata := none, error_type := some "execution_error" }

/-- The response `call_tool` actually returns: the pydantic model built from
the return site's keyword arguments, with the undeclared `error_type`
keyword dropped. -/
def call_tool (r : ToolRegistry) (temporal_worker : Option TemporalWorker)
    (tool_request : ToolCallRequest) : ToolCallResponse :=
  mkToolCallResponse (call_tool_args r temporal_worker tool_request)

/-- One `tool_data` entry of the `list_tools` handler (router.py lines
64-94), for a tool that passed the profile filter. -/
def toolDataEntry (temporal_worker : Option TemporalWorker) (tool_info : ToolInfo) :
    List (String × JValue) :=
  let base :=
    [("name", JValue.str tool_info.name),
     ("description", JValue.str tool_info.description),
     ("input_schema", tool_info.input_schema),
     ("output_schema", tool_info.output_schema)]
  let tool_profiles := tool_info.getattr_profiles_default
  let withProfiles :=
    if tool_profiles.isEmpty then base
    else base ++ [("profiles", JValue.arr (tool_profiles.map JValue.str))]
  let withTemporal :=
    match temporal_worker with
    | some _ =>
      withProfiles ++ [("temporal", JValue.obj
        [("enabled", JValue.bool true),
         ("timeout_seconds", JValue.int tool_info.timeout_seconds),
         ("retry_policy",
           match tool_info.retry_policy with
           | some rp => rp
           | none => JValue.obj [("max_attempts", JValue.int 3)])])]
    | none => withProfiles
  if tool_info.injections.isEmpty then withTemporal
  else withTemporal ++ [("injections", JValue.arr (tool_info.injections.map
    (fun inj => JValue.obj
      [("param", JValue.str inj.param),
       ("config_key", JValue.str inj.config_key),
       ("required", JValue.bool inj.required)])))]

/-- Translation of the `list_tools` handler (router.py lines 44-95).
`profile.lower() if profile else None` treats both an absent and an empty
profile string as "no filter"; with a non-empty filter a tool is kept only
when the lowercased filter occurs among its lowercased profile tags, which
are read through `getattr(tool_info, "profiles", [])`. -/
def list_tools (r : ToolRegistry) (temporal_worker : Option TemporalWorker)
    (profile : Option String) : List (List (String × JValue)) :=
  let profile_lower :=
    match profile with
    | some p => if p = "" then none else some p.toLower
    | none => none
  (r.list_all.filter (fun tool_info =>
    match profile_lower with
    | some pl => (tool_info.getattr_profiles_default.map String.toLower).contains pl
    | none => true)).map (toolDataEntry temporal_worker)

/-! ### Concrete tools, requests and schema accessors used by the theorems -/

/-- Concrete tool descriptor used by the registry witnesses. -/
def sampleTool : ToolInfo :=
  { name := "add", description := "adds", input_schema := JValue.obj [],
    output_schema := JValue.obj [], func := fun _ => Except.ok JValue.null,
    timeout_seconds := 300, retry_policy := none, injections := [] }

/-- A second, distinct descriptor that reuses the same name. -/
def sampleToolClone : ToolInfo :=
  { sampleTool with description := "adds again" }

/-- The unknown-tool request used as the failing input for the error-kind
claim (the spec's own "ghost" example). -/
def ghostRequest : ToolCallRequest :=
  { tool_name := "ghost", arguments := [], context := none }

/-- Concrete tool with one required injection, for the missing-context
witness: `greet(name, user_id←context["user_id"])`. -/
def greetTool : ToolInfo :=
  { name := "greet", description := "Greet user.", input_schema := JValue.obj [],
    output_schema := JValue.obj [],
    func := fun _ => Except.ok (JValue.str "hi"),
    timeout_seconds := 300, retry_policy := none,
    injections := [{ param := "user_id", config_key := "user_id", required := true }] }

/-- The missing-context request: arguments supply only `name`, the supplied
context is explicitly empty. -/
def missingCtxRequest : ToolCallRequest :=
  { tool_name := "greet", arguments := [("name", JValue.str "Alice")],
    context := some [] }

/-- Concrete tool with two injections: an earlier one drawing its value
from context key "a", then a required one on key "user_id". -/
def twoInjTool : ToolInfo :=
  { name := "pair", description := "Two injections.", input_schema := JValue.obj [],
    output_schema := JValue.obj [],
    func := fun _ => Except.ok (JValue.str "hi"),
    timeout_seconds := 300, retry_policy := none,
    injections := [{ param := "a", config_key := "a", required := true },
                   { param := "user_id", config_key := "user_id", required := true }] }

/-- A call to `twoInjTool` supplying a non-null context value for the
earlier injection while the required injection's key "user_id" is absent
from the supplied context and its parameter absent from the arguments. -/
def twoInjRequest : ToolCallRequest :=
  { tool_name := "pair", arguments := [],
    context := some [("a", JValue.str "v")] }

/-- Removal of every entry of one key from a dict (`del d[k]` semantics,
robust to the duplicate-free invariant). -/
def dictRemove : List (String × JValue) → String → List (String × JValue)
  | [], _ => []
  | (k', v) :: rest, k =>
    if k' = k then dictRemove rest k else (k', v) :: dictRemove rest k

/-- Concrete request whose context explicitly maps the key to null. -/
def nullCtxRequest : ToolCallRequest :=
  { tool_name := "greet", arguments := [("name", JValue.str "Alice")],
    context := some [("user_id", JValue.null)] }

/-- Concrete tool whose callable raises `ValueError("boom")`. -/
def boomTool : ToolInfo :=
  { name := "boom", description := "raises", input_schema := JValue.obj [],
    output_schema := JValue.obj [],
    func := fun _ => Except.error { excName := "ValueError", msg := "boom" },
    timeout_seconds := 300, retry_policy := none, injections := [] }

/-- Concrete tool whose callable raises `TimeoutError("boom")`. -/
def timeoutRaiserTool : ToolInfo :=
  { name := "t", description := "raises TimeoutError", input_schema := JValue.obj [],
    output_schema := JValue.obj [],
    func := fun _ => Except.error { excName := "TimeoutError", msg := "boom" },
    timeout_seconds := 1, retry_policy := none, injections := [] }

/-- The `greet` callable of the repository's own type-validation test:
`greet(name: str, user_id: Annotated[str, Inject(key="user_id")]) -> str`. -/
def greetDecl : PyFuncDecl :=
  { pyName := "greet", docFirstLine := "Greet user.",
    params := [⟨"name", PyType.pystr, none⟩,
               ⟨"user_id", PyType.annotatedInject PyType.pystr "user_id" true, none⟩],
    ret := PyType.pystr,
    behavior := fun _ => Except.ok (JValue.str "hi") }

/-- The failing input of the type-mismatch claim: expected string, integer
42 supplied in the context. -/
def wrongTypeRequest : ToolCallRequest :=
  { tool_name := "greet", arguments := [("name", JValue.str "Alice")],
    context := some [("user_id", JValue.int 42)] }

/-- A tool registered with `fire_and_forget=True`:
`notify(msg: str) -> str`. -/
def notifyDecl : PyFuncDecl :=
  { pyName := "notify", docFirstLine := "Notify.",
    params := [⟨"msg", PyType.pystr, none⟩],
    ret := PyType.pystr,
    behavior := fun _ => Except.ok (JValue.str "done") }

/-- Concrete profiled tool declaration for the C4 witness. -/
def taggerDecl : PyFuncDecl :=
  { pyName := "tagger", docFirstLine := "Tags.",
    params := [⟨"x", PyType.pystr, none⟩],
    ret := PyType.pystr,
    behavior := fun _ => Except.ok (JValue.str "ok") }

/-- The registry produced by registering `taggerDecl` with
`profiles=["JAVI"]`: note the resulting ToolInfo retains no trace of the
profile tags. -/
def taggerRegistry : ToolRegistry :=
  [("tagger",
    { name := "tagger", description := "Tags.",
      input_schema := JValue.obj [("type", JValue.str "object"),
        ("properties", JValue.obj [("x", JValue.obj [("type", JValue.str "string")])]),
        ("required", JValue.arr [JValue.str "x"])],
      output_schema := JValue.obj [("type", JValue.str "string")],
      func := taggerDecl.behavior, timeout_seconds := 300,
      retry_policy := some (JValue.obj [("max_attempts", JValue.int 3)]),
      injections := [] })]

/-- The `properties` object of a derived input schema. -/
def inputProperties (inp : JValue) : List (String × JValue) :=
  match inp with
  | JValue.obj fs =>
    match dictGet fs "properties" with
    | some (JValue.obj ps) => ps
    | _ => []
  | _ => []

/-- The `required` array of a derived input schema. -/
def inputRequired (inp : JValue) : List JValue :=
  match inp with
  | JValue.obj fs =>
    match dictGet fs "required" with
    | some (JValue.arr xs) => xs
    | _ => []
  | _ => []

/-- A parameter `x: str | None` with no default value at all
(`inspect.Parameter.empty`). -/
def optionalStrParam : FuncParam :=
  ⟨"x", PyType.unionOf [PyType.pystr, PyType.pyNone], none⟩

/-! ### Helper lemmas -/

/-- Appending a fresh key to a dict makes it retrievable. -/
theorem dictGet_append_fresh {α : Type} (r : List (String × α)) (k : String) (v : α)
    (h : dictGet r k = none) : dictGet (r ++ [(k, v)]) k = some v := by
  induction r with
  | nil => simp [dictGet]
  | cons p rest ih =>
    rw [List.cons_append]
    by_cases hk : p.1 = k
    · exfalso
      rw [show p = (p.1, p.2) from rfl] at h
      simp [dictGet, hk] at h
    · rw [show p = (p.1, p.2) from rfl] at h ⊢
      simp [dictGet, hk] at h ⊢
      exact ih h

/-- Registering over an occupied name raises the duplicate ValueError. -/
theorem register_occupied (r : ToolRegistry) (t : ToolInfo)
    (h : (dictGet r t.name).isSome) :
    r.register t = Except.error ("Tool '" ++ t.name ++ "' is already registered") := by
  simp [ToolRegistry.register, h]

/-- Once the name is taken, any further same-named attempts all fail and
leave the registry unchanged. -/
theorem registerAttempts_occupied (r : ToolRegistry) (N : String)
    (ts : List ToolInfo) (hocc : (dictGet r N).isSome)
    (hall : ∀ u ∈ ts, u.name = N) :
    registerAttempts r ts = (r, 0) := by
  induction ts with
  | nil => rfl
  | cons t rest ih =>
    have hname : t.name = N := hall t (by simp)
    have : r.register t = Except.error ("Tool '" ++ t.name ++ "' is already registered") :=
      register_occupied r t (by rw [hname]; exact hocc)
    simp [registerAttempts, this]
    exact ih (fun u hu => hall u (by simp [hu]))

/-! ### C9: duplicate registration -/

/-- C9: registering a second descriptor with an already-registered name
fails with the duplicate-tool ValueError while the registry still maps the
name to the first descriptor, and of any non-empty sequence of registration
attempts for the same name (starting from a registry where the name is
free), exactly the first succeeds. -/
theorem register_duplicate_exactly_one_wins
    (r r' : ToolRegistry) (N : String) (t : ToolInfo) (ts : List ToolInfo)
    (hfresh : r.get N = none) (hname : t.name = N)
    (hok : r.register t = Except.ok r')
    (hall : ∀ u ∈ ts, u.name = N) :
    (∀ t2 : ToolInfo, t2.name = N →
      r'.register t2 = Except.error ("Tool '" ++ N ++ "' is already registered")) ∧
    r'.get N = some t ∧
    registerAttempts r (t :: ts) = (r', 1) := by
  have hr' : r' = r ++ [(N, t)] := by
    simp only [ToolRegistry.register, ToolRegistry.get] at hok hfresh
    rw [hname, hfresh] at hok
    simpa using hok.symm
  have hfresh' : dictGet r N = none := hfresh
  have hget : r'.get N = some t := by
    rw [hr']
    exact dictGet_append_fresh r N t hfresh'
  have hocc : (dictGet r' N).isSome := by
    simp [ToolRegistry.get] at hget
    simp [hget]
  refine ⟨?_, hget, ?_⟩
  · intro t2 h2
    have := register_occupied r' t2 (by rw [h2]; exact hocc)
    rw [h2] at this
    exact this
  · have hstuck : registerAttempts r' ts = (r', 0) :=
      registerAttempts_occupied r' N ts hocc hall
    simp [registerAttempts, hok, hstuck]

/-- Witness for C9 at a concrete registry: the empty registry, one winning
registration of "add", one failing clone. -/
theorem register_duplicate_exactly_one_wins_witness :
    ToolRegistry.get [] "add" = none ∧
    sampleTool.name = "add" ∧
    ToolRegistry.register [] sampleTool = Except.ok [("add", sampleTool)] ∧
    (∀ u ∈ [sampleToolClone], u.name = "add") ∧
    ((∀ t2 : ToolInfo, t2.name = "add" →
        ToolRegistry.register [("add", sampleTool)] t2 =
          Except.error ("Tool '" ++ "add" ++ "' is already registered")) ∧
      ToolRegistry.get [("add", sampleTool)] "add" = some sampleTool ∧
      registerAttempts [] (sampleTool :: [sampleToolClone]) = ([("add", sampleTool)], 1)) := by
  refine ⟨rfl, rfl, rfl, ?_, ?_⟩
  · intro u hu
    simp at hu
    rw [hu]
    rfl
  · exact register_duplicate_exactly_one_wins [] [("add", sampleTool)] "add"
      sampleTool [sampleToolClone] rfl rfl rfl
      (by intro u hu; simp at hu; rw [hu]; rfl)

/-! ### C1: errorKind never reaches the response -/

/-- C1 (failing input evaluation): on the unknown-tool failure the handler's
return site does pass `error_type="tool_not_found"`, but the constructed
ToolCallResponse declares no such field, so the serialised response carries
no errorKind at all — its keys are exactly success/result/error/metadata.
This contradicts the claim (and the repository's own tests) that a failed
ExecutionResult carries an errorKind. -/
theorem call_tool_drops_error_kind :
    (call_tool_args [] none ghostRequest).error_type = some "tool_not_found" ∧
    (call_tool_args [] none ghostRequest).success = false ∧
    (call_tool [] none ghostRequest).model_dump =
      [("success", JValue.bool false),
       ("result", JValue.null),
       ("error", JValue.str "Tool 'ghost' not found"),
       ("metadata", JValue.null)] ∧
    dictGet (call_tool [] none ghostRequest).model_dump "error_type" = none := by
  refine ⟨rfl, rfl, rfl, rfl⟩

/-! ### Injection-loop lemmas -/

/-- Injections that are already supplied in the arguments, or optional with
no (non-null) context value, are passed over by the loop without effect. -/
theorem resolve_injections_skip (ctx : List (String × JValue))
    (pre rest : List ToolInjection) (args : List (String × JValue))
    (hpre : ∀ j ∈ pre, (dictGet args j.param).isSome ∨
      ((contextValue ctx j.config_key).isNull ∧ j.required = false)) :
    resolve_injections ctx (pre ++ rest) args = resolve_injections ctx rest args := by
  induction pre with
  | nil => rfl
  | cons j pre' ih =>
    have hj := hpre j (by simp)
    have hrest : ∀ j' ∈ pre', (dictGet args j'.param).isSome ∨
        ((contextValue ctx j'.config_key).isNull ∧ j'.required = false) :=
      fun j' hj' => hpre j' (by simp [hj'])
    rcases hj with hsup | ⟨hnull, hopt⟩
    · simp [resolve_injections, hsup, ih hrest]
    · by_cases hsup : (dictGet args j.param).isSome
      · simp [resolve_injections, hsup, ih hrest]
      · simp [resolve_injections, hsup, hnull, hopt, ih hrest]

/-- When the loop completes, the final arguments are exactly the caller's
arguments: with the missing `expected_type` field, no injected value can
ever be merged (a non-null context value raises before the assignment). -/
theorem resolve_injections_ok_args (ctx : List (String × JValue))
    (injs : List ToolInjection) (args fa : List (String × JValue))
    (h : resolve_injections ctx injs args = ResolveOut.ok fa) : fa = args := by
  induction injs with
  | nil =>
    simp [resolve_injections] at h
    exact h.symm
  | cons j rest ih =>
    by_cases hsup : (dictGet args j.param).isSome
    · simp [resolve_injections, hsup] at h
      exact ih h
    · by_cases hnull : (contextValue ctx j.config_key).isNull
      · by_cases hreq : j.required
        · simp [resolve_injections, hsup, hnull, hreq] at h
        · simp [resolve_injections, hsup, hnull, hreq] at h
          exact ih h
      · simp [resolve_injections, hsup, hnull, ToolInjection.getattr_expected_type] at h

/-- Unfolding append on string data (definitional). -/
theorem strData_append (a b : String) : (a ++ b).data = a.data ++ b.data := rfl

/-- A string whose character data decomposes around `b.data` contains `b`. -/
theorem strContains_parts (s b : String) (pre suf : List Char)
    (h : s.data = pre ++ b.data ++ suf) : strContains s b :=
  ⟨pre, suf, h.symm⟩

/-! ### C7: required injection absent from context -/

/-- C7 (counterexample to the claim as stated): a call squarely in the
claim's scope — the tool has a required injection "user_id" whose parameter
is not supplied in the arguments and whose context key is absent from the
supplied context — yet the response is NOT the missing-context failure
naming that key and parameter: an earlier injection draws the non-null
context value "v", so the loop crashes on `injection.expected_type`
(router.py line 244) and the outer handler returns the AttributeError as
`execution_error`, whose message names neither "user_id" nor the
parameter. -/
theorem call_tool_missing_context_shadowed_counterexample :
    call_tool_args [("pair", twoInjTool)] none twoInjRequest =
      { success := false, result := JValue.null,
        error := some "'ToolInjection' object has no attribute 'expected_type'",
        metadata := none, error_type := some "execution_error" } ∧
    (call_tool_args [("pair", twoInjTool)] none twoInjRequest).error_type ≠
      some "missing_context" ∧
    ¬ strContains "'ToolInjection' object has no attribute 'expected_type'"
      "user_id" := by
  refine ⟨rfl, by decide, by decide⟩

/-- C7 (amended): when the injection loop REACHES a required injection
whose parameter is not among the caller's arguments and whose context key
is absent from the supplied context — every preceding injection being
either supplied in the arguments or optional with an absent-or-null
context value — the call fails with the missing-context response whose
message names both the context key and the parameter.  (If an earlier
injection draws a non-null context value, the call instead fails with the
AttributeError `execution_error` of C2, see the counterexample.)  The
tool's callable is never consulted: both `tool` (hence `tool.func`) and
the Temporal worker are universally quantified and the failure response is
independent of them.  (Per C1, the `error_type="missing_context"` keyword
recorded here is dropped from the final pydantic response.) -/
theorem call_tool_missing_required_context
    (r : ToolRegistry) (tw : Option TemporalWorker) (req : ToolCallRequest)
    (tool : ToolInfo) (pre post : List ToolInjection) (inj : ToolInjection)
    (hget : r.get req.tool_name = some tool)
    (hinjs : tool.injections = pre ++ inj :: post)
    (hpre : ∀ j ∈ pre, (dictGet req.arguments j.param).isSome ∨
      ((contextValue (requestContext req) j.config_key).isNull ∧ j.required = false))
    (hparam : dictGet req.arguments inj.param = none)
    (hkey : dictGet (requestContext req) inj.config_key = none)
    (hreq : inj.required = true) :
    call_tool_args r tw req =
      { success := false, result := JValue.null,
        error := some ("Missing required context value '" ++ inj.config_key ++
          "' for param '" ++ inj.param ++ "'"),
        metadata := none, error_type := some "missing_context" } ∧
    strContains ("Missing required context value '" ++ inj.config_key ++
      "' for param '" ++ inj.param ++ "'") inj.config_key ∧
    strContains ("Missing required context value '" ++ inj.config_key ++
      "' for param '" ++ inj.param ++ "'") inj.param := by
  have hnull : (contextValue (requestContext req) inj.config_key).isNull = true := by
    simp [contextValue, hkey, JValue.isNull]
  have hres : resolve_injections (requestContext req) tool.injections req.arguments =
      ResolveOut.errResp
        { success := false, result := JValue.null,
          error := some ("Missing required context value '" ++ inj.config_key ++
            "' for param '" ++ inj.param ++ "'"),
          metadata := none, error_type := some "missing_context" } := by
    rw [hinjs, resolve_injections_skip _ pre _ _ hpre]
    simp [resolve_injections, hparam, hnull, hreq]
  refine ⟨?_, ?_, ?_⟩
  · simp [call_tool_args, hget, hres]
  · exact strContains_parts _ _ "Missing required context value '".data
      ("' for param '" ++ inj.param ++ "'").data
      (by simp [strData_append, List.append_assoc])
  · exact strContains_parts _ _
      ("Missing required context value '" ++ inj.config_key ++ "' for param '").data
      "'".data (by simp [strData_append, List.append_assoc])

/-- Witness for C7 at a concrete call. -/
theorem call_tool_missing_required_context_witness :
    ToolRegistry.get [("greet", greetTool)] missingCtxRequest.tool_name = some greetTool ∧
    greetTool.injections = [] ++ ToolInjection.mk "user_id" "user_id" true :: [] ∧
    dictGet missingCtxRequest.arguments "user_id" = none ∧
    dictGet (requestContext missingCtxRequest) "user_id" = none ∧
    (call_tool_args [("greet", greetTool)] none missingCtxRequest =
      { success := false, result := JValue.null,
        error := some ("Missing required context value '" ++ "user_id" ++
          "' for param '" ++ "user_id" ++ "'"),
        metadata := none, error_type := some "missing_context" } ∧
      strContains ("Missing required context value '" ++ "user_id" ++
        "' for param '" ++ "user_id" ++ "'") "user_id" ∧
      strContains ("Missing required context value '" ++ "user_id" ++
        "' for param '" ++ "user_id" ++ "'") "user_id") := by
  refine ⟨rfl, rfl, rfl, rfl, ?_⟩
  exact call_tool_missing_required_context [("greet", greetTool)] none
    missingCtxRequest greetTool [] []
    (ToolInjection.mk "user_id" "user_id" true)
    rfl rfl (by intro j hj; simp at hj) rfl rfl rfl

/-! ### C10: explicit null context entries -/

/-- Removing one key leaves lookups of other keys alone. -/
theorem dictGet_dictRemove_ne (ctx : List (String × JValue)) (k key : String)
    (hne : key ≠ k) :
    dictGet (dictRemove ctx k) key = dictGet ctx key := by
  induction ctx with
  | nil => rfl
  | cons p rest ih =>
    rcases p with ⟨pk, pv⟩
    by_cases hpk : pk = k
    · have hkk : ¬ (k = key) := fun hcontra => hne hcontra.symm
      simp [dictRemove, dictGet, hpk, hkk, ih]
    · by_cases hpkey : pk = key
      · simp [dictRemove, dictGet, hpk, hpkey, hne]
      · simp [dictRemove, dictGet, hpk, hpkey, ih]

/-- After removing a key, the key looks up to nothing. -/
theorem dictGet_dictRemove_self (ctx : List (String × JValue)) (k : String) :
    dictGet (dictRemove ctx k) k = none := by
  induction ctx with
  | nil => rfl
  | cons p rest ih =>
    rcases p with ⟨pk, pv⟩
    by_cases hpk : pk = k
    · simp [dictRemove, hpk, ih]
    · simp [dictRemove, dictGet, hpk, ih]

/-- A context entry holding an explicit null is indistinguishable, through
`context.get`, from an erased entry. -/
theorem contextValue_dictRemove_null (ctx : List (String × JValue)) (k : String)
    (h : dictGet ctx k = some JValue.null) (key : String) :
    contextValue (dictRemove ctx k) key = contextValue ctx key := by
  by_cases hk : key = k
  · subst hk
    rw [contextValue, contextValue, dictGet_dictRemove_self, h]
  · rw [contextValue, contextValue, dictGet_dictRemove_ne ctx k key hk]

/-- The injection loop only consults the context through `context.get`, so
contexts with identical lookups resolve identically. -/
theorem resolve_injections_ctx_congr (ctx ctx' : List (String × JValue))
    (h : ∀ key, contextValue ctx key = contextValue ctx' key) :
    ∀ (injs : List ToolInjection) (args : List (String × JValue)),
      resolve_injections ctx injs args = resolve_injections ctx' injs args := by
  intro injs
  induction injs with
  | nil => intro args; rfl
  | cons j rest ih =>
    intro args
    by_cases hsup : (dictGet args j.param).isSome
    · simp [resolve_injections, hsup, ih]
    · rw [resolve_injections, resolve_injections]
      simp only [hsup]
      rw [h j.config_key]
      by_cases hnull : (contextValue ctx' j.config_key).isNull
      · by_cases hreq : j.required
        · simp [hnull, hreq]
        · simp [hnull, hreq, ih]
      · simp [hnull, ToolInjection.getattr_expected_type]

/-- The whole handler consults the supplied context only through
`context.get`, so replacing the context by one with identical lookups
leaves the response unchanged. -/
theorem call_tool_args_context_congr (r : ToolRegistry)
    (tw : Option TemporalWorker) (req : ToolCallRequest)
    (ctx2 : List (String × JValue))
    (h : ∀ key, contextValue (requestContext req) key = contextValue ctx2 key) :
    call_tool_args r tw req =
      call_tool_args r tw { req with context := some ctx2 } := by
  rcases req with ⟨n, args, ctxOpt⟩
  simp only [requestContext] at h
  simp only [call_tool_args, requestContext]
  cases hget : r.get n with
  | none => rfl
  | some tool =>
    have hres := resolve_injections_ctx_congr _ ctx2 h tool.injections args
    simp only [hget]
    simp [hres]

/-- C10: a context entry whose value is an explicit null behaves exactly
like an absent entry.  First, the whole call result is unchanged when the
null-valued entry is erased from the supplied context, even though the
context map contains the key.  Second, when the loop reaches a required
injection whose key holds null, the call fails with the same
missing-context response (naming that key) as for an absent key.  Third,
for an optional injection the parameter is simply omitted: whenever
resolution completes, the final argument set does not contain it.  The
tool's callable (`tool.func`) and the worker are universally quantified,
so the failure response is independent of them. -/
theorem call_tool_null_context_entry_like_absent
    (r : ToolRegistry) (tw : Option TemporalWorker) (req : ToolCallRequest)
    (tool : ToolInfo) (pre post : List ToolInjection) (inj : ToolInjection)
    (hget : r.get req.tool_name = some tool)
    (hinjs : tool.injections = pre ++ inj :: post)
    (hpre : ∀ j ∈ pre, (dictGet req.arguments j.param).isSome ∨
      ((contextValue (requestContext req) j.config_key).isNull ∧ j.required = false))
    (hparam : dictGet req.arguments inj.param = none)
    (hkey : dictGet (requestContext req) inj.config_key = some JValue.null) :
    (call_tool_args r tw req = call_tool_args r tw
      { req with context := some (dictRemove (requestContext req) inj.config_key) }) ∧
    (inj.required = true → call_tool_args r tw req =
      { success := false, result := JValue.null,
        error := some ("Missing required context value '" ++ inj.config_key ++
          "' for param '" ++ inj.param ++ "'"),
        metadata := none, error_type := some "missing_context" }) ∧
    (inj.required = false → ∀ fa,
      resolve_injections (requestContext req) tool.injections req.arguments =
        ResolveOut.ok fa → dictGet fa inj.param = none) := by
  have hnull : (contextValue (requestContext req) inj.config_key).isNull = true := by
    simp [contextValue, hkey, JValue.isNull]
  refine ⟨?_, ?_, ?_⟩
  · exact call_tool_args_context_congr r tw req _
      (fun key => (contextValue_dictRemove_null _ inj.config_key hkey key).symm)
  · intro hreq
    have hres : resolve_injections (requestContext req) tool.injections req.arguments =
        ResolveOut.errResp
          { success := false, result := JValue.null,
            error := some ("Missing required context value '" ++ inj.config_key ++
              "' for param '" ++ inj.param ++ "'"),
            metadata := none, error_type := some "missing_context" } := by
      rw [hinjs, resolve_injections_skip _ pre _ _ hpre]
      simp [resolve_injections, hparam, hnull, hreq]
    simp [call_tool_args, hget, hres]
  · intro _ fa hres
    rw [resolve_injections_ok_args _ _ _ _ hres]
    exact hparam

/-- Witness for C10 at a concrete call (required injection, null entry). -/
theorem call_tool_null_context_entry_like_absent_witness :
    ToolRegistry.get [("greet", greetTool)] nullCtxRequest.tool_name = some greetTool ∧
    greetTool.injections = [] ++ ToolInjection.mk "user_id" "user_id" true :: [] ∧
    dictGet nullCtxRequest.arguments "user_id" = none ∧
    dictGet (requestContext nullCtxRequest) "user_id" = some JValue.null ∧
    ((call_tool_args [("greet", greetTool)] none nullCtxRequest =
      call_tool_args [("greet", greetTool)] none
        { nullCtxRequest with
          context := some (dictRemove (requestContext nullCtxRequest) "user_id") }) ∧
    ((ToolInjection.mk "user_id" "user_id" true).required = true →
      call_tool_args [("greet", greetTool)] none nullCtxRequest =
      { success := false, result := JValue.null,
        error := some ("Missing required context value '" ++ "user_id" ++
          "' for param '" ++ "user_id" ++ "'"),
        metadata := none, error_type := some "missing_context" }) ∧
    ((ToolInjection.mk "user_id" "user_id" true).required = false → ∀ fa,
      resolve_injections (requestContext nullCtxRequest) greetTool.injections
        nullCtxRequest.arguments = ResolveOut.ok fa →
      dictGet fa "user_id" = none)) := by
  refine ⟨rfl, rfl, rfl, rfl, ?_⟩
  exact call_tool_null_context_entry_like_absent [("greet", greetTool)] none
    nullCtxRequest greetTool [] [] (ToolInjection.mk "user_id" "user_id" true)
    rfl rfl (by intro j hj; simp at hj) rfl rfl

/-! ### C8: exceptions from the callable in direct mode -/

/-- C8 (amended): in direct mode, once injection resolution has completed,
an exception raised by the callable is returned as data — never propagated
(`call_tool_args` is total and produces response arguments in every case).
If the exception is not a TimeoutError the response is the
`execution_error` one and its error message is exactly `str(e)` (hence
contains the exception's message); a TimeoutError raised by the callable is
caught by the handler's `except TimeoutError` clause instead and reported
as the `timeout` response, whose message does not mention the exception. -/
theorem call_tool_direct_exception_as_data
    (r : ToolRegistry) (req : ToolCallRequest) (tool : ToolInfo)
    (fa : List (String × JValue)) (e : PyExc)
    (hget : r.get req.tool_name = some tool)
    (hres : resolve_injections (requestContext req) tool.injections req.arguments =
      ResolveOut.ok fa)
    (hfunc : tool.func fa = Except.error e) :
    call_tool_args r none req =
      (if e.isTimeout then
        { success := false, result := JValue.null,
          error := some ("Tool '" ++ req.tool_name ++ "' timed out after " ++
            toString tool.timeout_seconds ++ "s"),
          metadata := none, error_type := some "timeout" }
      else
        { success := false, result := JValue.null, error := some e.msg,
          metadata := none, error_type := some "execution_error" }) ∧
    (e.isTimeout = false → strContains
      (match (call_tool_args r none req).error with
       | some s => s
       | none => "") e.msg) := by
  constructor
  · by_cases ht : e.isTimeout
    · simp [call_tool_args, hget, hres, hfunc, ht]
    · simp [call_tool_args, hget, hres, hfunc, ht]
  · intro ht
    have : call_tool_args r none req =
        { success := false, result := JValue.null, error := some e.msg,
          metadata := none, error_type := some "execution_error" } := by
      simp [call_tool_args, hget, hres, hfunc, ht]
    rw [this]
    exact ⟨[], [], by simp⟩

/-- Witness for C8 (amended) at the spec's own `ValueError("boom")` example. -/
theorem call_tool_direct_exception_as_data_witness :
    ToolRegistry.get [("boom", boomTool)] "boom" = some boomTool ∧
    resolve_injections (requestContext ⟨"boom", [], none⟩) boomTool.injections [] =
      ResolveOut.ok [] ∧
    boomTool.func [] = Except.error { excName := "ValueError", msg := "boom" } ∧
    (call_tool_args [("boom", boomTool)] none ⟨"boom", [], none⟩ =
      (if ({ excName := "ValueError", msg := "boom" } : PyExc).isTimeout then
        { success := false, result := JValue.null,
          error := some ("Tool '" ++ "boom" ++ "' timed out after " ++
            toString boomTool.timeout_seconds ++ "s"),
          metadata := none, error_type := some "timeout" }
      else
        { success := false, result := JValue.null, error := some "boom",
          metadata := none, error_type := some "execution_error" }) ∧
    (({ excName := "ValueError", msg := "boom" } : PyExc).isTimeout = false →
      strContains
        (match (call_tool_args [("boom", boomTool)] none ⟨"boom", [], none⟩).error with
         | some s => s
         | none => "") "boom")) := by
  refine ⟨rfl, rfl, rfl, ?_⟩
  exact call_tool_direct_exception_as_data [("boom", boomTool)] ⟨"boom", [], none⟩
    boomTool [] { excName := "ValueError", msg := "boom" } rfl rfl rfl

/-- C8 (counterexample to the claim as stated): a callable that raises
`TimeoutError("boom")` is caught by `except TimeoutError`, so the call is
reported as a `timeout` — not as `execution_error` — and the error message
does not contain the exception's message "boom". -/
theorem call_tool_direct_timeout_exception_counterexample :
    call_tool_args [("t", timeoutRaiserTool)] none ⟨"t", [], none⟩ =
      { success := false, result := JValue.null,
        error := some "Tool 't' timed out after 1s",
        metadata := none, error_type := some "timeout" } ∧
    ¬ strContains "Tool 't' timed out after 1s" "boom" ∧
    (call_tool_args [("t", timeoutRaiserTool)] none ⟨"t", [], none⟩).error_type ≠
      some "execution_error" := by
  refine ⟨rfl, by decide, by decide⟩

/-! ### C2: injected-value type validation -/

/-- C2 (failing input evaluation): schema extraction records the injection
without any expected type (ToolInjection declares no `expected_type`
field), so when the router finds a non-null context value it crashes on
`injection.expected_type` with AttributeError, which the outer handler
converts to the `execution_error` response — not the claimed
`validation_error` naming parameter, key and both types.  The callable's
behaviour is universally quantified: it is never invoked.  (The same
AttributeError fires even for a correctly-typed value, contradicting the
repository's own tests.) -/
theorem call_tool_type_mismatch_attribute_error :
    ∀ g : List (String × JValue) → Except PyExc JValue,
    (olive_tool [] { greetDecl with behavior := g } none 300 none false none).map
      (fun reg => call_tool_args reg none wrongTypeRequest) =
    Except.ok
      { success := false, result := JValue.null,
        error := some "'ToolInjection' object has no attribute 'expected_type'",
        metadata := none, error_type := some "execution_error" } := by
  intro g
  rfl

/-- Witness for C2's universally-quantified callable, at the repository
test's own callable behaviour. -/
theorem call_tool_type_mismatch_attribute_error_witness :
    (olive_tool [] greetDecl none 300 none false none).map
      (fun reg => call_tool_args reg none wrongTypeRequest) =
    Except.ok
      { success := false, result := JValue.null,
        error := some "'ToolInjection' object has no attribute 'expected_type'",
        metadata := none, error_type := some "execution_error" } :=
  call_tool_type_mismatch_attribute_error greetDecl.behavior

/-! ### C3: fire-and-forget under the Temporal backend -/

/-- C3 (failing input evaluation): for a tool registered with
`fire_and_forget=True` while the Temporal worker is active, the call does
NOT start a workflow and does NOT return its identifier.  ToolInfo silently
discards the `fire_and_forget` constructor keyword (it declares no such
field), so the router's `if tool_info.fire_and_forget:` raises
AttributeError, which the outer handler converts to a failed
`execution_error` response.  The worker is universally quantified: no
workflow is ever started and the result is independent of it. -/
theorem call_tool_fire_and_forget_attribute_error :
    ∀ w : TemporalWorker,
    (olive_tool [] notifyDecl none 300 none true none).map
      (fun reg => call_tool_args reg (some w)
        { tool_name := "notify", arguments := [("msg", JValue.str "hi")],
          context := none }) =
    Except.ok
      { success := false, result := JValue.null,
        error := some "'ToolInfo' object has no attribute 'fire_and_forget'",
        metadata := none, error_type := some "execution_error" } := by
  intro w
  rfl

/-- Witness for C3's universally-quantified worker, at a concrete worker. -/
theorem call_tool_fire_and_forget_attribute_error_witness :
    (olive_tool [] notifyDecl none 300 none true none).map
      (fun reg => call_tool_args reg
        (some { uuid := "u1", executeResult := Except.ok JValue.null })
        { tool_name := "notify", arguments := [("msg", JValue.str "hi")],
          context := none }) =
    Except.ok
      { success := false, result := JValue.null,
        error := some "'ToolInfo' object has no attribute 'fire_and_forget'",
        metadata := none, error_type := some "execution_error" } :=
  call_tool_fire_and_forget_attribute_error
    { uuid := "u1", executeResult := Except.ok JValue.null }

/-! ### C4: profiles are silently discarded -/

/-- Every tool-data entry leads with its name. -/
theorem toolDataEntry_name (tw : Option TemporalWorker) (info : ToolInfo) :
    dictGet (toolDataEntry tw info) "name" = some (JValue.str info.name) := by
  simp only [toolDataEntry]
  cases tw <;> by_cases h : info.injections.isEmpty <;>
    simp [ToolInfo.getattr_profiles_default, h, dictGet]

/-- No tool-data entry ever carries a `profiles` key: the profile tags were
dropped at ToolInfo construction and `getattr` yields the empty default. -/
theorem toolDataEntry_no_profiles (tw : Option TemporalWorker) (info : ToolInfo) :
    dictGet (toolDataEntry tw info) "profiles" = none := by
  simp only [toolDataEntry]
  cases tw <;> by_cases h : info.injections.isEmpty <;>
    simp [ToolInfo.getattr_profiles_default, h, dictGet]

/-- Any non-empty profile filter excludes every tool: no ToolInfo carries
profile tags, so the case-insensitive membership test always fails. -/
theorem list_tools_nonempty_filter_empty (r : ToolRegistry)
    (tw : Option TemporalWorker) (flt : String) (hflt : flt ≠ "") :
    list_tools r tw (some flt) = [] := by
  rw [list_tools]
  simp [ToolInfo.getattr_profiles_default, List.filter_eq_nil_iff, hflt]

/-- Successful registration appends the descriptor under its name. -/
theorem register_ok_inv (r reg' : ToolRegistry) (info : ToolInfo)
    (h : r.register info = Except.ok reg') : reg' = r ++ [(info.name, info)] := by
  simp only [ToolRegistry.register] at h
  by_cases hocc : (dictGet r info.name).isSome
  · simp [hocc] at h
  · simp [hocc] at h
    exact h.symm

/-- After a successful registration, the unfiltered listing contains the
new tool's entry (led by its name) and no entry carries a `profiles` key. -/
theorem list_tools_after_register (r reg' : ToolRegistry) (info : ToolInfo)
    (tw : Option TemporalWorker)
    (h : r.register info = Except.ok reg') :
    (∃ td ∈ list_tools reg' tw none, dictGet td "name" = some (JValue.str info.name)) ∧
    (∀ td ∈ list_tools reg' tw none, dictGet td "profiles" = none) := by
  have hsplit := register_ok_inv _ _ _ h
  constructor
  · refine ⟨toolDataEntry tw info, ?_, toolDataEntry_name tw info⟩
    simp only [list_tools]
    refine List.mem_map_of_mem _ ?_
    rw [List.mem_filter]
    constructor
    · rw [hsplit, ToolRegistry.list_all, List.map_append]
      exact List.mem_append_right _ (by simp)
    · rfl
  · intro td htd
    simp only [list_tools] at htd
    rcases List.mem_map.mp htd with ⟨info', _, hrfl⟩
    rw [← hrfl]
    exact toolDataEntry_no_profiles tw info'

/-- C4: the `profiles` argument of `olive_tool` is silently discarded at
ToolInfo construction (ToolInfo declares no such field), so a tool
registered with non-empty profile tags is omitted from every listing under
a non-empty profile filter (indeed, such a listing is always empty), while
the unfiltered listing does contain the tool but never a `profiles`
entry. -/
theorem olive_tool_profiles_discarded
    (r reg' : ToolRegistry) (f : PyFuncDecl) (d : Option String) (tmo : Nat)
    (rp : Option JValue) (faf : Bool) (ps : List String) (flt : String)
    (tw : Option TemporalWorker)
    (hreg : olive_tool r f d tmo rp faf (some ps) = Except.ok reg')
    (hps : ps ≠ []) (hflt : flt ≠ "") :
    list_tools reg' tw (some flt) = [] ∧
    (∃ td ∈ list_tools reg' tw none, dictGet td "name" = some (JValue.str f.pyName)) ∧
    (∀ td ∈ list_tools reg' tw none, dictGet td "profiles" = none) := by
  have hpair := list_tools_after_register r reg' _ tw hreg
  exact ⟨list_tools_nonempty_filter_empty reg' tw flt hflt, hpair.1, hpair.2⟩

/-- Witness for C4 at a concrete registration with `profiles=["JAVI"]` and
filter "javi". -/
theorem olive_tool_profiles_discarded_witness :
    olive_tool [] taggerDecl none 300 none false (some ["JAVI"]) =
      Except.ok taggerRegistry ∧
    (["JAVI"] : List String) ≠ [] ∧ ("javi" : String) ≠ "" ∧
    (list_tools taggerRegistry none (some "javi") = [] ∧
     (∃ td ∈ list_tools taggerRegistry none none,
        dictGet td "name" = some (JValue.str "tagger")) ∧
     (∀ td ∈ list_tools taggerRegistry none none, dictGet td "profiles" = none)) := by
  have hreg : olive_tool [] taggerDecl none 300 none false (some ["JAVI"]) =
      Except.ok taggerRegistry := by
    simp [olive_tool, mkToolInfo, extract_schema_from_function, extractParams,
      parse_inject_annotation, python_type_to_json_schema, ToolRegistry.register,
      dictGet, taggerRegistry, taggerDecl]
  refine ⟨hreg, by simp, by simp, ?_⟩
  exact olive_tool_profiles_discarded [] taggerRegistry taggerDecl none 300 none
    false ["JAVI"] "javi" none hreg (by simp) (by simp)

/-! ### C5: optional string parameters -/

/-- C5 (counterexample to the claim as stated): for `x: str | None` with no
explicit default, the property schema is indeed
`{type: string, nullable: true}`, but `x` IS listed in `required` —
required-ness tracks only the presence of a default value, not optionality
of the type — refuting the claim that the name is absent from the required
list. -/
theorem extract_optional_string_no_default_required :
    (extract_schema_from_function [optionalStrParam] PyType.pyAny).1 =
      JValue.obj [("type", JValue.str "object"),
        ("properties", JValue.obj [("x",
          JValue.obj [("type", JValue.str "string"), ("nullable", JValue.bool true)])]),
        ("required", JValue.arr [JValue.str "x"])] ∧
    JValue.str "x" ∈
      inputRequired (extract_schema_from_function [optionalStrParam] PyType.pyAny).1 := by
  constructor
  · simp [extract_schema_from_function, extractParams, parse_inject_annotation,
      python_type_to_json_schema, jsonObjSet, dictSet, PyType.isNoneType,
      optionalStrParam]
  · simp [extract_schema_from_function, extractParams, parse_inject_annotation,
      python_type_to_json_schema, jsonObjSet, dictSet, PyType.isNoneType,
      optionalStrParam, inputRequired, dictGet]

/-- C5 (amended): a parameter declared `str | None` always derives the
property schema `{type: string, nullable: true}`, and its name is absent
from `required` exactly when it has an explicit default (e.g. `= None`);
with no default at all it is required. -/
theorem extract_optional_string_schema (n : String) (d : Option JValue)
    (hn : n ≠ "self") (hd : d = none ∨ d = some JValue.null) :
    dictGet (inputProperties (extract_schema_from_function
        [⟨n, PyType.unionOf [PyType.pystr, PyType.pyNone], d⟩] PyType.pyAny).1) n =
      some (JValue.obj [("type", JValue.str "string"), ("nullable", JValue.bool true)]) ∧
    (JValue.str n ∈ inputRequired (extract_schema_from_function
        [⟨n, PyType.unionOf [PyType.pystr, PyType.pyNone], d⟩] PyType.pyAny).1 ↔
      d = none) := by
  rcases hd with rfl | rfl <;>
    constructor <;>
      simp [extract_schema_from_function, extractParams, parse_inject_annotation,
        python_type_to_json_schema, jsonObjSet, dictSet, PyType.isNoneType,
        inputProperties, inputRequired, dictGet, hn, JValue.isNull]

/-- Witness for C5 (amended) at the concrete parameter `x: str | None`. -/
theorem extract_optional_string_schema_witness :
    ("x" : String) ≠ "self" ∧
    (dictGet (inputProperties (extract_schema_from_function
        [⟨"x", PyType.unionOf [PyType.pystr, PyType.pyNone], none⟩] PyType.pyAny).1) "x" =
      some (JValue.obj [("type", JValue.str "string"), ("nullable", JValue.bool true)]) ∧
    (JValue.str "x" ∈ inputRequired (extract_schema_from_function
        [⟨"x", PyType.unionOf [PyType.pystr, PyType.pyNone], none⟩] PyType.pyAny).1 ↔
      (none : Option JValue) = none)) :=
  ⟨by simp,
   extract_optional_string_schema "x" none (by simp) (Or.inl rfl)⟩

/-! ### C6: unions of more than two alternatives -/

/-- C6 (failing input evaluation): a three-way union `str | int | float`
maps to `{anyOf: [string, integer, number]}` — not to the generic
`{type: object}` schema the specification (and the repository's own
test-suite) prescribes. -/
theorem python_union_three_not_object :
    python_type_to_json_schema
        (PyType.unionOf [PyType.pystr, PyType.pyint, PyType.pyfloat]) =
      JValue.obj [("anyOf", JValue.arr
        [JValue.obj [("type", JValue.str "string")],
         JValue.obj [("type", JValue.str "integer")],
         JValue.obj [("type", JValue.str "number")]])] ∧
    python_type_to_json_schema
        (PyType.unionOf [PyType.pystr, PyType.pyint, PyType.pyfloat]) ≠
      JValue.obj [("type", JValue.str "object")] := by
  have h1 : python_type_to_json_schema
      (PyType.unionOf [PyType.pystr, PyType.pyint, PyType.pyfloat]) =
      JValue.obj [("anyOf", JValue.arr
        [JValue.obj [("type", JValue.str "string")],
         JValue.obj [("type", JValue.str "integer")],
         JValue.obj [("type", JValue.str "number")]])] := by
    simp [python_type_to_json_schema]
  refine ⟨h1, ?_⟩
  rw [h1]
  simp
